import Mathlib

/-!
Shallow embedding of the `law_firm_management` Odoo module service layer
(`services/case_validation_service.py`, `services/case_state_service.py`,
`services/case_success_rate_service.py`, `services/case_event_manager.py`,
`services/precedent_analysis_service.py`) and of `models/law_case.py`.

Conventions of the embedding:
* An Odoo record field that can be unset (a falsy `False`/`None`/empty
  recordset in Python) is an `Option`.
* A Python `vals` dictionary is the `Vals` structure: each field is
  `Option (Option α)` where the outer `Option` models key presence and the
  inner one models a falsy (`False`/`None`) value, so `vals.get(k)` is
  `v.k.getD none`.
* Dates are day numbers (`Int`); `fields.Date.today()` is an explicit
  `today` parameter; the difference of two dates in days is their
  difference as integers (`delta.days`).
* Monetary amounts are rationals (`ℚ`).
* Raised exceptions / returned error messages are explicit error values;
  each constructor is documented with the message it stands for.
-/

namespace LawFirm

/-- The `state` selection of `law.case`: `draft`, `open`, `on_hold`, `closed`
(`opened` and `onHold` stand for the string keys `open` and `on_hold`). -/
inductive StateName
| draft
| opened
| onHold
| closed
deriving DecidableEq, Repr

/-- The `client_role` selection of `law.case` and the `favoured_party`
selection of `law.case.precedent`: `plaintiff` or `defendant`. -/
inductive Party
| plaintiff
| defendant
deriving DecidableEq, Repr

/-- The `evidence_strength` selection of `law.case`. -/
inductive EvidenceStrength
| weak
| moderate
| strong
| conclusive
deriving DecidableEq, Repr

/-- The `case_strength` selection of `law.case`.  The model literally
declares the top value as the string `very_string` (a typo in the source,
kept faithfully: the scoring dictionaries use the key `very_strong`,
which therefore never matches). -/
inductive CaseStrength
| very_weak
| weak
| moderate
| strong
| very_string
deriving DecidableEq, Repr

/-- A day number; `fields.Date` values are compared and subtracted in days. -/
abbrev Date := Int

/-- The slice of a `law.case.stage` record read by `LawCase.write`. -/
structure Stage where
  is_closed_stage : Bool
deriving DecidableEq, Repr

/-- The slice of a `law.case` record read by the embedded services.
`responsible_employee_id` and `practice_area_id` are the ids of the linked
records (`none` = empty many2one); monetary fields read as `0` when unset,
exactly as Odoo `Monetary` fields do. -/
structure Case where
  code : Option String
  state : StateName
  responsible_employee_id : Option Nat
  client_role : Option Party
  practice_area_id : Option Nat
  open_date : Option Date
  close_date : Option Date
  estimated_amount_claim : ℚ
  estimated_amount_recovery : ℚ
  estimated_legal_costs : ℚ
  evidence_strength : Option EvidenceStrength
  case_strength : Option CaseStrength
  precedent_count : Nat
  favorable_precedents_count : Nat
deriving DecidableEq, Repr

/-- A `vals` dictionary passed to `write`/`validate`/`transition`.  Outer
`Option` = key presence, inner `Option` = truthiness of the stored value
(see the file comment). -/
structure Vals where
  state : Option StateName
  responsible_employee_id : Option (Option Nat)
  open_date : Option (Option Date)
  close_date : Option (Option Date)
  actual_duration_days : Option Int
  estimated_amount_claim : Option (Option ℚ)
  estimated_amount_recovery : Option (Option ℚ)
  estimated_legal_costs : Option (Option ℚ)
  code : Option (Option String)
  stage_id : Option Stage
deriving DecidableEq, Repr

/-- A dictionary with no keys, `{}`. -/
def Vals.empty : Vals :=
  ⟨none, none, none, none, none, none, none, none, none, none⟩

/-- The expression `vals.get` of key `state` with the record state as the
default (`draft` for an empty recordset), for a non-empty `case`. -/
def effState (c : Case) (v : Vals) : StateName :=
  v.state.getD c.state

/-- The expression `vals.get` of key `responsible_employee_id` with the
record value as the default: the proposed value wins whenever the key is
present, even when it is falsy. -/
def effResponsible (c : Case) (v : Vals) : Option Nat :=
  match v.responsible_employee_id with
  | some proposed => proposed
  | none => c.responsible_employee_id

/-- `vals.get(key, case.value) or 0` for a monetary field: a present falsy
value coalesces to `0`; the record fallback is the stored amount. -/
def effMoney (caseVal : ℚ) (proposed : Option (Option ℚ)) : ℚ :=
  match proposed with
  | some (some q) => q
  | some none => 0
  | none => caseVal

/-- `ResponsibleLawyerValidator.validate`
(`case_validation_service.py`, lines 38-47): fails exactly when the
effective state is `open` and the effective responsible lawyer is falsy. -/
def ResponsibleLawyerValidator_validate (c : Case) (v : Vals) : Bool :=
  if effState c v = StateName.opened ∧ effResponsible c v = none then false
  else true

/-- `FinancialDataValidator.validate`
(`case_validation_service.py`, lines 74-94). -/
def FinancialDataValidator_validate (c : Case) (v : Vals) : Bool :=
  let claim := effMoney c.estimated_amount_claim v.estimated_amount_claim
  let recovery := effMoney c.estimated_amount_recovery v.estimated_amount_recovery
  let costs := effMoney c.estimated_legal_costs v.estimated_legal_costs
  if recovery > claim ∧ claim > 0 then false
  else if costs < 0 then false
  else if claim < 0 then false
  else true

/-- `StateTransitionValidator.VALID_TRANSITIONS`
(`case_validation_service.py`, lines 137-142). -/
def StateTransitionValidator_VALID_TRANSITIONS : StateName → List StateName
| .draft => [.opened]
| .opened => [.onHold, .closed]
| .onHold => [.opened, .closed]
| .closed => [.draft]

/-- `StateTransitionValidator.validate`
(`case_validation_service.py`, lines 149-160): vacuously true when no state
is proposed; otherwise old = new, or new in the allowed list. -/
def StateTransitionValidator_validate (c : Case) (v : Vals) : Bool :=
  match v.state with
  | none => true
  | some newState =>
    let oldState := c.state
    if oldState = newState then true
    else decide (newState ∈ StateTransitionValidator_VALID_TRANSITIONS oldState)

/-- `allowed_transitions` of the four `CaseState` subclasses
(`case_state_service.py`: `DraftState` line 88, `OpenState` line 116,
`OnHoldState` line 155, `ClosedState` line 178). -/
def CaseState_allowed_transitions : StateName → List StateName
| .draft => [.opened]
| .opened => [.onHold, .closed]
| .onHold => [.opened, .closed]
| .closed => [.draft]

/-- Errors produced by `CaseStateMachine.transition` over the four
registered states.  `notAllowed a b` is the message
"Transición de estado no permitida: a → b"; `draftExitNeedsLawyer` is
"Debe asignar un abogado responsable antes de abrir el caso." raised by
`DraftState.on_exit`; `openValidateNeedsLawyer` is "Un caso abierto debe
tener un abogado responsable asignado." raised by `OpenState.validate`. -/
inductive TransitionError
| notAllowed (oldState newState : StateName)
| draftExitNeedsLawyer
| openValidateNeedsLawyer
deriving DecidableEq, Repr

/-- `DraftState.on_exit` (`case_state_service.py`, lines 91-100). -/
def DraftState_on_exit (c : Case) (v : Vals) : Option TransitionError :=
  if effResponsible c v = none then some TransitionError.draftExitNeedsLawyer
  else none

/-- Dispatch of the `on_exit` hook: only `DraftState` overrides it with a
check that can fail; `OnHoldState.on_exit` and `ClosedState.on_exit` only
log and return success, the base hook returns success. -/
def State_on_exit (s : StateName) (c : Case) (v : Vals) : Option TransitionError :=
  match s with
  | .draft => DraftState_on_exit c v
  | _ => none

/-- `OpenState.on_enter` (`case_state_service.py`, lines 118-129): set
`open_date` to today when both the stored and the proposed one are falsy;
then `vals.setdefault` of `close_date` to `False` when the proposed state
is `open`.
The hook always returns success; only its effect on `vals` is modelled. -/
def OpenState_on_enter (today : Date) (c : Case) (v : Vals) : Vals :=
  let v1 :=
    if c.open_date = none ∧ v.open_date.getD none = none then
      { v with open_date := some (some today) }
    else v
  if v1.state = some StateName.opened then
    if v1.close_date = none then { v1 with close_date := some none } else v1
  else v1

/-- `ClosedState.on_enter` (`case_state_service.py`, lines 180-201): set
`close_date` to today when the proposed one is falsy (the stored
`close_date` is not consulted); when the record has an `open_date` and the
resulting proposed `close_date` is truthy, set `actual_duration_days` to
their difference in days.  Always returns success. -/
def ClosedState_on_enter (today : Date) (c : Case) (v : Vals) : Vals :=
  let v1 :=
    if v.close_date.getD none = none then
      { v with close_date := some (some today) }
    else v
  match c.open_date, v1.close_date.getD none with
  | some od, some cd => { v1 with actual_duration_days := some (cd - od) }
  | _, _ => v1

/-- Dispatch of the `on_enter` hook.  `DraftState` does not override
`on_enter`, so re-entering `draft` runs the base hook, which only logs and
leaves `vals` unchanged; `OnHoldState.on_enter` also only logs. -/
def State_on_enter (today : Date) (s : StateName) (c : Case) (v : Vals) : Vals :=
  match s with
  | .opened => OpenState_on_enter today c v
  | .closed => ClosedState_on_enter today c v
  | .draft => v
  | .onHold => v

/-- `OpenState.validate` (`case_state_service.py`, lines 131-139). -/
def OpenState_validate (c : Case) (v : Vals) : Option TransitionError :=
  if effResponsible c v = none then some TransitionError.openValidateNeedsLawyer
  else none

/-- Dispatch of the state `validate` hook: only `OpenState.validate` can
fail; `ClosedState.validate` warns about a missing outcome but explicitly
does not block; the base hook returns success. -/
def State_validate (s : StateName) (c : Case) (v : Vals) : Option TransitionError :=
  match s with
  | .opened => OpenState_validate c v
  | _ => none

/-- `CaseStateMachine.transition` (`case_state_service.py`, lines 252-310)
restricted to the four registered states (every `StateName` is a key of
`CaseStateMachine.STATES`, so the invalid-state branches are unreachable):
no-op when old = new; reject when the target is not an allowed transition;
then run the `on_exit` hook of the old state, the `on_enter` hook of the
new one (which rewrites `vals`), and the `validate` hook of the new one,
stopping at the first failure.  Returns the error (if
any) together with the `vals` dictionary as mutated so far. -/
def CaseStateMachine_transition (today : Date) (c : Case)
    (oldState newState : StateName) (v : Vals) : Option TransitionError × Vals :=
  if oldState = newState then (none, v)
  else if newState ∈ CaseState_allowed_transitions oldState then
    match State_on_exit oldState c v with
    | some e => (some e, v)
    | none =>
      let v1 := State_on_enter today newState c v
      match State_validate newState c v1 with
      | some e => (some e, v1)
      | none => (none, v1)
  else (some (TransitionError.notAllowed oldState newState), v)

lemma State_on_exit_ne_notAllowed (s : StateName) (c : Case) (v : Vals)
    (a b : StateName) : State_on_exit s c v ≠ some (TransitionError.notAllowed a b) := by
  cases s
  · simp only [State_on_exit, DraftState_on_exit]
    split <;> simp
  · simp [State_on_exit]
  · simp [State_on_exit]
  · simp [State_on_exit]

lemma State_validate_ne_notAllowed (s : StateName) (c : Case) (v : Vals)
    (a b : StateName) : State_validate s c v ≠ some (TransitionError.notAllowed a b) := by
  cases s
  · simp [State_validate]
  · simp only [State_validate, OpenState_validate]
    split <;> simp
  · simp [State_validate]
  · simp [State_validate]

/-- C1: for every pair of case states, a proposed status change passes the
`StateTransitionValidator` iff the new state equals the old one or lies in
the allowed-successor set of the old state (regardless of the other proposed
field values), the successor sets are exactly draft→{open},
open→{on_hold, closed}, on_hold→{open, closed}, closed→{draft} in both the
table of the validator and the state objects, and `CaseStateMachine.transition`
reports the transition-not-allowed error exactly on the remaining pairs. -/
theorem C1_state_transition_legality :
    (∀ (c : Case) (v : Vals) (newState : StateName),
        StateTransitionValidator_validate c { v with state := some newState } = true ↔
          (newState = c.state ∨
            newState ∈ StateTransitionValidator_VALID_TRANSITIONS c.state))
    ∧ (∀ (today : Date) (c : Case) (oldState newState : StateName) (v : Vals),
        (CaseStateMachine_transition today c oldState newState v).1 =
            some (TransitionError.notAllowed oldState newState) ↔
          ¬(newState = oldState ∨ newState ∈ CaseState_allowed_transitions oldState))
    ∧ StateTransitionValidator_VALID_TRANSITIONS StateName.draft = [StateName.opened]
    ∧ StateTransitionValidator_VALID_TRANSITIONS StateName.opened
        = [StateName.onHold, StateName.closed]
    ∧ StateTransitionValidator_VALID_TRANSITIONS StateName.onHold
        = [StateName.opened, StateName.closed]
    ∧ StateTransitionValidator_VALID_TRANSITIONS StateName.closed = [StateName.draft]
    ∧ (∀ s, CaseState_allowed_transitions s = StateTransitionValidator_VALID_TRANSITIONS s) := by
  refine ⟨?_, ?_, rfl, rfl, rfl, rfl, ?_⟩
  · intro c v newState
    simp only [StateTransitionValidator_validate]
    by_cases h : c.state = newState
    · simp [h, eq_comm]
    · have h2 : ¬newState = c.state := fun hh => h hh.symm
      simp [h, h2]
  · intro today c oldState newState v
    by_cases h1 : oldState = newState
    · subst h1
      simp [CaseStateMachine_transition]
    · by_cases h2 : newState ∈ CaseState_allowed_transitions oldState
      · have h1' : ¬newState = oldState := fun hh => h1 hh.symm
        simp only [CaseStateMachine_transition, if_neg h1, if_pos h2]
        constructor
        · intro hres
          exfalso
          rcases hexit : State_on_exit oldState c v with _ | e
          · rcases hval : State_validate newState c (State_on_enter today newState c v) with _ | e'
            · simp [hexit, hval] at hres
            · simp [hexit, hval] at hres
              exact State_validate_ne_notAllowed newState c
                (State_on_enter today newState c v) oldState newState (hval.trans (by rw [hres]))
          · simp [hexit] at hres
            exact State_on_exit_ne_notAllowed oldState c v oldState newState
              (hexit.trans (by rw [hres]))
        · intro hcon
          exact absurd (Or.inr h2) hcon
      · have h1' : ¬newState = oldState := fun hh => h1 hh.symm
        simp [CaseStateMachine_transition, if_neg h1, h2, h1']
  · intro s
    cases s <;> rfl

/-- The enrichment the spec attributes to the `open` on-enter hook, written
from the (amended) spec sentence: open-date becomes today when neither the
case nor the change-set has one, and close-date defaults to cleared when
the change-set does not already contain a close-date entry. -/
def C2spec_open_enrichment (today : Date) (c : Case) (v : Vals) : Vals :=
  { v with
    open_date :=
      if c.open_date = none ∧ v.open_date.getD none = none then some (some today)
      else v.open_date,
    close_date := if v.close_date = none then some none else v.close_date }

/-- The enrichment the spec attributes to the `closed` on-enter hook,
written from the (amended) spec sentence: close-date becomes today when the
change-set lacks a truthy one, and, when the case has an open-date, actual
duration becomes the elapsed days between that open-date and the resulting
close-date. -/
def C2spec_closed_enrichment (today : Date) (c : Case) (v : Vals) : Vals :=
  let cd : Date := (v.close_date.getD none).getD today
  { v with
    close_date := some (some cd),
    actual_duration_days :=
      match c.open_date with
      | some od => some (cd - od)
      | none => v.actual_duration_days }

/-- A plain draft case with an assigned code and responsible lawyer, used
as the base of the concrete scenarios below. -/
def base_case : Case :=
  { code := some "LC-0001", state := StateName.draft,
    responsible_employee_id := some 7, client_role := none,
    practice_area_id := none, open_date := none, close_date := none,
    estimated_amount_claim := 0, estimated_amount_recovery := 0,
    estimated_legal_costs := 0, evidence_strength := none,
    case_strength := none, precedent_count := 0,
    favorable_precedents_count := 0 }

/-- Concrete case for the C2 counterexample: a closed case with both dates
set, about to be reopened to draft. -/
def c2_case : Case :=
  { base_case with
    code := some "C-0001",
    state := StateName.closed,
    open_date := some 10,
    close_date := some 40 }

/-- Change-set proposing only the reopening to draft. -/
def c2_vals : Vals := { Vals.empty with state := some StateName.draft }

/-- C2 counterexample: the closed→draft transition succeeds, but the
change-set comes back unchanged — contrary to the claim, re-entering
`draft` does not clear open-date and close-date (no falsy entries for
either are injected), because `DraftState` defines no `on_enter` hook and
the inherited base hook only logs. -/
theorem C2_counterexample :
    CaseStateMachine_transition 100 c2_case StateName.closed StateName.draft c2_vals
        = (none, c2_vals)
      ∧ c2_vals.open_date ≠ some none
      ∧ c2_vals.close_date ≠ some none
      ∧ c2_case.open_date = some 10 ∧ c2_case.close_date = some 40 := by
  decide

/-- C2 (amended): on a successful transition the on-enter enrichment of the
pending change-set is: entering `open` sets open-date to today when neither
the case nor the change-set has one and defaults close-date to cleared when
the change-set has no close-date entry; entering `closed` sets close-date
to today when the change-set lacks a truthy one and, when the case has an
open-date, sets actual duration to the elapsed days between open-date and
the resulting close-date; re-entering `draft` leaves the change-set
unchanged (the date clearing for draft lives in `LawCase.write`, not in the
state hook), so in particular the whole closed→draft transition succeeds
and returns the change-set as it was. -/
theorem C2_on_enter_enrichment :
    (∀ (today : Date) (c : Case) (v : Vals),
        OpenState_on_enter today c { v with state := some StateName.opened } =
          C2spec_open_enrichment today c { v with state := some StateName.opened })
    ∧ (∀ (today : Date) (c : Case) (v : Vals),
        ClosedState_on_enter today c v = C2spec_closed_enrichment today c v)
    ∧ (∀ (today : Date) (c : Case) (v : Vals),
        State_on_enter today StateName.draft c v = v)
    ∧ (∀ (today : Date) (c : Case) (v : Vals),
        CaseStateMachine_transition today c StateName.closed StateName.draft v
          = (none, v)) := by
  refine ⟨?_, ?_, ?_, ?_⟩
  · intro today c v
    by_cases h : c.open_date = none ∧ v.open_date.getD none = none <;>
      by_cases hc : v.close_date = none <;>
        simp [OpenState_on_enter, C2spec_open_enrichment, h, hc]
  · intro today c v
    rcases v with ⟨s, r, od, cd, ad, a1, a2, a3, co, st⟩
    rcases hod : c.open_date with _ | odate <;>
      rcases cd with _ | (_ | d) <;>
        simp [ClosedState_on_enter, C2spec_closed_enrichment, hod]
  · intro today c v
    rfl
  · intro today c v
    simp [CaseStateMachine_transition, State_on_exit, State_on_enter, State_validate,
      CaseState_allowed_transitions]

/-- Concrete case for the C6 counterexample: a draft case that already has
a responsible lawyer. -/
def c6_case : Case := { base_case with code := some "C-0002" }

/-- Change-set opening the case while explicitly blanking the responsible
lawyer (`responsible_employee_id: False` is in the dict). -/
def c6_vals : Vals :=
  { Vals.empty with
    state := some StateName.opened,
    responsible_employee_id := some none }

/-- C6 counterexample: a responsible lawyer is present on the case
(`some 7`), yet the transition-into-open checks all fail, because the
proposed falsy `responsible_employee_id` value shadows the one on the case
via `vals.get` — the clause of the claim that the check passes whenever a
reference is present in either place
does not hold. -/
theorem C6_counterexample :
    c6_case.responsible_employee_id = some 7
      ∧ ResponsibleLawyerValidator_validate c6_case c6_vals = false
      ∧ DraftState_on_exit c6_case c6_vals = some TransitionError.draftExitNeedsLawyer
      ∧ OpenState_validate c6_case c6_vals = some TransitionError.openValidateNeedsLawyer := by
  decide

/-- C6 (amended): each of the three transition-into-open checks
(`ResponsibleLawyerValidator`, `DraftState.on_exit`, `OpenState.validate`)
passes iff the effective responsible-lawyer reference — the proposed value
whenever the key is present in the change-set (even a falsy one),
otherwise the current one of the case — is non-empty, and fails with the
respective error message otherwise.  In particular the check fails when
neither place has a reference. -/
theorem C6_responsible_lawyer_checks :
    ∀ (c : Case) (v : Vals),
      (ResponsibleLawyerValidator_validate c { v with state := some StateName.opened } = true
          ↔ effResponsible c v ≠ none)
        ∧ (DraftState_on_exit c v = none ↔ effResponsible c v ≠ none)
        ∧ (OpenState_validate c v = none ↔ effResponsible c v ≠ none) := by
  intro c v
  have hresp : effResponsible c { v with state := some StateName.opened } = effResponsible c v := by
    simp [effResponsible]
  refine ⟨?_, ?_, ?_⟩
  · simp only [ResponsibleLawyerValidator_validate, effState, hresp]
    by_cases h : effResponsible c v = none <;> simp [h]
  · simp only [DraftState_on_exit]
    by_cases h : effResponsible c v = none <;> simp [h]
  · simp only [OpenState_validate]
    by_cases h : effResponsible c v = none <;> simp [h]

/-- All-zero case record used for the concrete C7 scenarios. -/
def c7_case : Case := { base_case with code := some "C-0003" }

/-- C7 scenario: claim 1000, recovery 1500. -/
def c7_vals_over : Vals :=
  { Vals.empty with
    estimated_amount_claim := some (some 1000),
    estimated_amount_recovery := some (some 1500) }

/-- C7 scenario: claim 1000, recovery 800, costs -1. -/
def c7_vals_negcost : Vals :=
  { Vals.empty with
    estimated_amount_claim := some (some 1000),
    estimated_amount_recovery := some (some 800),
    estimated_legal_costs := some (some (-1)) }

/-- C7 scenario: claim 1000, recovery 800, costs 50. -/
def c7_vals_ok : Vals :=
  { Vals.empty with
    estimated_amount_claim := some (some 1000),
    estimated_amount_recovery := some (some 800),
    estimated_legal_costs := some (some 50) }

/-- C7: the financial validator accepts iff the effective claimed amount is
non-negative, the effective legal costs are non-negative, and — whenever
the claimed amount is positive — the effective recovered amount does not
exceed it; and on the three concrete scenarios it rejects claim=1000 /
recovery=1500, rejects claim=1000 / recovery=800 / costs=-1, and accepts
claim=1000 / recovery=800 / costs=50. -/
theorem C7_financial_validator :
    (∀ (c : Case) (v : Vals),
        FinancialDataValidator_validate c v = true ↔
          (0 ≤ effMoney c.estimated_amount_claim v.estimated_amount_claim
            ∧ 0 ≤ effMoney c.estimated_legal_costs v.estimated_legal_costs
            ∧ (0 < effMoney c.estimated_amount_claim v.estimated_amount_claim →
                effMoney c.estimated_amount_recovery v.estimated_amount_recovery
                  ≤ effMoney c.estimated_amount_claim v.estimated_amount_claim)))
      ∧ FinancialDataValidator_validate c7_case c7_vals_over = false
      ∧ FinancialDataValidator_validate c7_case c7_vals_negcost = false
      ∧ FinancialDataValidator_validate c7_case c7_vals_ok = true := by
  refine ⟨?_, by decide, by decide, by decide⟩
  intro c v
  simp only [FinancialDataValidator_validate]
  split_ifs with h1 h2 h3
  · simp only [Bool.false_eq_true, false_iff]
    rintro ⟨-, -, hc⟩
    exact absurd (hc h1.2) (not_le.mpr h1.1)
  · simp only [Bool.false_eq_true, false_iff]
    rintro ⟨-, hb, -⟩
    exact absurd hb (not_le.mpr h2)
  · simp only [Bool.false_eq_true, false_iff]
    rintro ⟨ha, -, -⟩
    exact absurd ha (not_le.mpr h3)
  · simp only [true_iff]
    refine ⟨le_of_not_lt h3, le_of_not_lt h2, fun hpos => ?_⟩
    by_contra hrec
    exact h1 ⟨lt_of_not_le hrec, hpos⟩

/-- Field application performed by `super().write` (the Odoo ORM): every
key present in the values dict is written to the corresponding record
field.  The `readonly=True` attribute on a field definition only affects
web-client forms; the ORM does not enforce it on server-side writes, so a
`code` entry is applied like any other.  A falsy value clears an optional
field and stores `0` in a monetary one.  Entries for fields outside the
`Case` slice (`actual_duration_days`, `stage_id`) have no modelled record
counterpart and are dropped. -/
def super_write (c : Case) (v : Vals) : Case :=
  { c with
    code := match v.code with | some x => x | none => c.code,
    state := match v.state with | some s => s | none => c.state,
    responsible_employee_id :=
      match v.responsible_employee_id with | some x => x | none => c.responsible_employee_id,
    open_date := match v.open_date with | some x => x | none => c.open_date,
    close_date := match v.close_date with | some x => x | none => c.close_date,
    estimated_amount_claim :=
      match v.estimated_amount_claim with
      | some x => x.getD 0
      | none => c.estimated_amount_claim,
    estimated_amount_recovery :=
      match v.estimated_amount_recovery with
      | some x => x.getD 0
      | none => c.estimated_amount_recovery,
    estimated_legal_costs :=
      match v.estimated_legal_costs with
      | some x => x.getD 0
      | none => c.estimated_legal_costs }

/-- The `stage_id` block of `LawCase.write` (`law_case.py`, lines 240-244):
when a stage is proposed and it is a closed stage, force `state` to
`closed` and `close_date` to today.  The proposed stage is carried in the
dict already resolved to the flag the block reads (`browse` result). -/
def write_stage_step (today : Date) (v : Vals) : Vals :=
  match v.stage_id with
  | some stage =>
    if stage.is_closed_stage then
      { v with state := some StateName.closed, close_date := some (some today) }
    else v
  | none => v

/-- `LawCase.write` (`law_case.py`, lines 216-245) for one record: the
state block raises "Asigna un abogado responsable para abrir el caso" when
opening a case that has no responsible lawyer on the record, raises "El
caso no esta abierto." when closing from a state other than open/on_hold,
stamps `close_date` when closing, stamps `open_date` when opening without a
proposed one, clears both dates when moving to draft; then the stage block
runs, and finally `super().write` applies the dict. -/
def LawCase_write (today : Date) (c : Case) (v0 : Vals) : Except String Case :=
  match v0.state with
  | some newState =>
    if newState = StateName.opened ∧ c.responsible_employee_id = none then
      Except.error "Asigna un abogado responsable para abrir el caso"
    else if newState = StateName.closed
        ∧ ¬(c.state = StateName.opened ∨ c.state = StateName.onHold) then
      Except.error "El caso no esta abierto."
    else
      let v1 :=
        if newState = StateName.closed then { v0 with close_date := some (some today) }
        else v0
      let v2 :=
        if newState = StateName.opened ∧ v1.open_date.getD none = none then
          { v1 with open_date := some (some today) }
        else v1
      let v3 :=
        if newState = StateName.draft then
          { v2 with open_date := some none, close_date := some none }
        else v2
      Except.ok (super_write c (write_stage_step today v3))
  | none => Except.ok (super_write c (write_stage_step today v0))

/-- Change-set containing only a new `code` value. -/
def c4_vals : Vals := { Vals.empty with code := some (some "HACK") }

/-- C4 counterexample: a case whose code is already assigned (`LC-0001`)
is updated with a values map that contains a `code` key; the write
succeeds and the stored code changes, so the claim that the code field is
unchanged after any update fails. -/
theorem C4_counterexample :
    LawCase_write 0 base_case c4_vals
        = Except.ok { base_case with code := some "HACK" }
      ∧ base_case.code = some "LC-0001"
      ∧ some "HACK" ≠ base_case.code :=
  ⟨rfl, rfl, by decide⟩

lemma write_stage_step_code (today : Date) (v : Vals) :
    (write_stage_step today v).code = v.code := by
  rcases v with ⟨s, r, od, cd, ad, a1, a2, a3, co, st⟩
  rcases st with _ | stage
  · rfl
  · simp only [write_stage_step]
    split <;> rfl

/-- C4 (amended): the case code is never altered by `write` for any values
map that does not contain a `code` key — `LawCase.write` itself never
injects or strips one — but a values map that does contain a `code` key
overwrites the assigned code, because the `readonly` flag of the field is
enforced only at the UI level and `write` passes the entry through to the
ORM. -/
theorem C4_code_unchanged_without_key :
    ∀ (today : Date) (c : Case) (v : Vals) (c2 : Case),
      v.code = none → LawCase_write today c v = Except.ok c2 → c2.code = c.code := by
  intro today c v c2 hcode hw
  have hsup : ∀ w : Vals, w.code = none → (super_write c w).code = c.code := by
    intro w hw0
    simp [super_write, hw0]
  have hstage : ∀ w : Vals, (write_stage_step today w).code = w.code :=
    fun w => write_stage_step_code today w
  rcases v with ⟨vs, vr, vod, vcd, vad, va1, va2, va3, vco, vst⟩
  rcases vs with _ | newState
  · simp only [LawCase_write, Except.ok.injEq] at hw
    subst hw
    exact hsup _ ((hstage _).trans hcode)
  · cases newState <;>
      simp only [LawCase_write] at hw <;>
      (try simp at hw) <;>
      (try split_ifs at hw) <;>
      (try simp at hw) <;>
      first
        | exact hw.elim
        | (subst hw; exact hsup _ ((hstage _).trans hcode))

/-- Witness for C4 (amended): writing an empty values map to `base_case`
keeps its code. -/
theorem C4_code_unchanged_witness :
    Vals.empty.code = none
      ∧ LawCase_write 0 base_case Vals.empty = Except.ok base_case
      ∧ base_case.code = base_case.code :=
  ⟨rfl, rfl, C4_code_unchanged_without_key 0 base_case Vals.empty base_case rfl rfl⟩

/-- The slice of a `CaseEvent` the dispatch loop hands to observers (the
event is opaque to `notify` itself, which only passes it along). -/
structure CaseEvent where
  event_type : String
deriving DecidableEq, Repr

/-- An observer as seen by `CaseEventManager.notify`: its `can_handle` and
`handle` methods may return or raise (`Except.error` models a raised
exception). -/
structure CaseEventObserver where
  can_handle : CaseEvent → Except String Bool
  handle : CaseEvent → Except String Unit

/-- What happened for one observer during a dispatch. -/
inductive ObserverOutcome
| skipped
| handled
| caught
deriving DecidableEq, Repr

/-- The try-block body of the loop of `CaseEventManager.notify`
(`case_event_manager.py`, lines 163-175) for a single observer: evaluate
`can_handle`, call `handle` when it returned a truthy value; any exception
raised by either is caught by the `except` clause and only logged. -/
def notify_step (o : CaseEventObserver) (e : CaseEvent) : ObserverOutcome :=
  match o.can_handle e with
  | Except.error _ => ObserverOutcome.caught
  | Except.ok false => ObserverOutcome.skipped
  | Except.ok true =>
    match o.handle e with
    | Except.error _ => ObserverOutcome.caught
    | Except.ok _ => ObserverOutcome.handled

/-- `CaseEventManager.notify` over the observer list (already sorted by
priority at registration time, lower number first): run the try/except
body for each observer in order and record the outcomes.  The function is
total — the loop never aborts and no exception escapes it, so the
mutation of the caller proceeds normally after the dispatch. -/
def CaseEventManager_notify :
    List (Nat × CaseEventObserver) → CaseEvent → List ObserverOutcome
| [], _ => []
| (_, o) :: rest, e =>
  let tryBlock : Except String ObserverOutcome := do
    let b ← o.can_handle e
    if b then do
      o.handle e
      pure ObserverOutcome.handled
    else pure ObserverOutcome.skipped
  let outcome :=
    match tryBlock with
    | Except.error _ => ObserverOutcome.caught
    | Except.ok r => r
  outcome :: CaseEventManager_notify rest e

lemma notify_step_eq (o : CaseEventObserver) (e : CaseEvent) :
    (match (do
        let b ← o.can_handle e
        if b then do
          o.handle e
          pure ObserverOutcome.handled
        else pure ObserverOutcome.skipped : Except String ObserverOutcome) with
      | Except.error _ => ObserverOutcome.caught
      | Except.ok r => r) = notify_step o e := by
  rcases hch : o.can_handle e with msg | b
  · simp [notify_step, hch, Bind.bind, Except.bind]
  · rcases b
    · simp [notify_step, hch, Bind.bind, Except.bind, Pure.pure, Except.pure]
    · rcases hh : o.handle e with msg | u <;>
        simp [notify_step, hch, hh, Bind.bind, Except.bind, Pure.pure, Except.pure]

/-- C5: the outcome list of a dispatch is the pointwise map of each
own try/except outcome of each observer, so the dispatch is total (it always
returns normally and the surrounding case mutation completes), an
observer whose `handle` raises contributes `caught` instead of
propagating, and — as the append decomposition states — every observer
after an arbitrary prefix is still processed with exactly its own
`can_handle`/`handle` outcome, whatever happened earlier in priority
order. -/
theorem C5_observer_isolation :
    (∀ (observers : List (Nat × CaseEventObserver)) (e : CaseEvent),
        CaseEventManager_notify observers e
          = observers.map (fun p => notify_step p.2 e))
      ∧ (∀ (pre post : List (Nat × CaseEventObserver)) (e : CaseEvent),
          CaseEventManager_notify (pre ++ post) e
            = CaseEventManager_notify pre e ++ CaseEventManager_notify post e) := by
  have hmap : ∀ (observers : List (Nat × CaseEventObserver)) (e : CaseEvent),
      CaseEventManager_notify observers e
        = observers.map (fun p => notify_step p.2 e) := by
    intro observers e
    induction observers with
    | nil => rfl
    | cons p rest ih =>
      rcases p with ⟨prio, o⟩
      simp only [CaseEventManager_notify, List.map_cons, ih, notify_step_eq]
  refine ⟨hmap, fun pre post e => ?_⟩
  simp [hmap]

/-- A validator as seen by `CaseValidationService.validate`: the `validate`
method may return a boolean or raise. -/
structure CaseValidatorRule where
  validate : Case → Vals → Except String Bool
  error_message : String

/-- `CaseValidationService.validate` (`case_validation_service.py`, lines
205-229): walk the registered validators in order; a validator whose
`validate` raises is caught, logged and skipped (`continue`); the first
one that completes and returns a falsy value stops the walk with
`(False, its message)`; otherwise the result is `(True, None)`. -/
def CaseValidationService_validate :
    List CaseValidatorRule → Case → Vals → Bool × Option String
| [], _, _ => (true, none)
| validator :: rest, c, v =>
  match validator.validate c v with
  | Except.error _ => CaseValidationService_validate rest c v
  | Except.ok false => (false, some validator.error_message)
  | Except.ok true => CaseValidationService_validate rest c v

/-- C10: if no registered validator completes with a falsy result — i.e.
every validator either raises (and is skipped) or returns truthy — then
the validation service reports success; a crashing rule can never cause a
rejection. -/
theorem C10_crashing_validator_never_rejects :
    ∀ (validators : List CaseValidatorRule) (c : Case) (v : Vals),
      (∀ validator ∈ validators, validator.validate c v ≠ Except.ok false) →
      CaseValidationService_validate validators c v = (true, none) := by
  intro validators c v h
  induction validators with
  | nil => rfl
  | cons validator rest ih =>
    have hhead := h validator (List.mem_cons_self validator rest)
    have htail := fun w hw => h w (List.mem_cons_of_mem validator hw)
    rcases hval : validator.validate c v with msg | b
    · simpa [CaseValidationService_validate, hval] using ih htail
    · rcases b
      · exact absurd hval hhead
      · simpa [CaseValidationService_validate, hval] using ih htail

/-- A validator whose `validate` always raises. -/
def c10_crashing : CaseValidatorRule :=
  ⟨fun _ _ => Except.error "boom", "crashing rule"⟩

/-- A validator whose `validate` always passes. -/
def c10_passing : CaseValidatorRule :=
  ⟨fun _ _ => Except.ok true, "passing rule"⟩

/-- Witness for C10: a list made of a crashing validator followed by a
passing one validates successfully. -/
theorem C10_crashing_validator_witness :
    (∀ validator ∈ [c10_crashing, c10_passing],
        validator.validate base_case Vals.empty ≠ Except.ok false)
      ∧ CaseValidationService_validate [c10_crashing, c10_passing] base_case Vals.empty
          = (true, none) := by
  have h : ∀ validator ∈ [c10_crashing, c10_passing],
      validator.validate base_case Vals.empty ≠ Except.ok false := by
    intro validator hmem
    rcases List.mem_cons.mp hmem with h1 | h1
    · subst h1
      simp [c10_crashing]
    · rcases List.mem_cons.mp h1 with h2 | h2
      · subst h2
        simp [c10_passing]
      · exact absurd h2 (List.not_mem_nil validator)
  exact ⟨h, C10_crashing_validator_never_rejects [c10_crashing, c10_passing]
    base_case Vals.empty h⟩

/-- The success-rate strategy classes reachable through the registry. -/
inductive SuccessRateStrategyClass
| defaultStrategy
| civil
| penal
deriving DecidableEq, Repr

/-- `StrategyRegistry._REGISTRY` (`case_success_rate_service.py`, lines
322-327). -/
def StrategyRegistry_REGISTRY : List (String × SuccessRateStrategyClass) :=
  [("CIV", SuccessRateStrategyClass.civil),
   ("civil", SuccessRateStrategyClass.civil),
   ("PEN", SuccessRateStrategyClass.penal),
   ("penal", SuccessRateStrategyClass.penal)]

/-- `str.lower()` on the codes at hand: lower each character.  This equals
`String.toLower` (which maps `Char.toLower` over the string) but is
written on the character list so that proofs can evaluate it. -/
def str_lower (s : String) : String := ⟨s.data.map Char.toLower⟩

/-- `StrategyRegistry.get_strategy` (`case_success_rate_service.py`, lines
329-346): a falsy code (absent, or the empty string) yields the default;
otherwise try the exact key, then the key lowered with `str.lower()`, and
fall back to the default strategy. -/
def StrategyRegistry_get_strategy (practice_area_code : Option String) :
    SuccessRateStrategyClass :=
  match practice_area_code with
  | none => SuccessRateStrategyClass.defaultStrategy
  | some code =>
    if code = "" then SuccessRateStrategyClass.defaultStrategy
    else
      match StrategyRegistry_REGISTRY.lookup code with
      | some cls => cls
      | none =>
        (StrategyRegistry_REGISTRY.lookup (str_lower code)).getD
          SuccessRateStrategyClass.defaultStrategy

/-- The selection rule as the claim words it: exact registry match, else a
case-insensitive match against a registered key, else the default
strategy. -/
def C9spec_select (practice_area_code : Option String) : SuccessRateStrategyClass :=
  match practice_area_code with
  | none => SuccessRateStrategyClass.defaultStrategy
  | some code =>
    match StrategyRegistry_REGISTRY.lookup code with
    | some cls => cls
    | none =>
      match StrategyRegistry_REGISTRY.find?
          (fun kv => str_lower kv.1 == str_lower code) with
      | some kv => kv.2
      | none => SuccessRateStrategyClass.defaultStrategy

/-- C9 counterexample: the code `"civ"` matches the registered key `"CIV"`
case-insensitively, so the rule of the claim selects the civil strategy, but
`get_strategy` looks up only the lowercased code (`"civ"`, not a key) and
returns the default strategy instead. -/
theorem C9_counterexample :
    StrategyRegistry_get_strategy (some "civ") = SuccessRateStrategyClass.defaultStrategy
      ∧ C9spec_select (some "civ") = SuccessRateStrategyClass.civil
      ∧ SuccessRateStrategyClass.defaultStrategy ≠ SuccessRateStrategyClass.civil := by
  refine ⟨by decide, by decide, by decide⟩

/-- C9 (amended): strategy selection returns the strategy registered under
the exact code when one exists, otherwise the one registered under the
lowercased code when one exists, otherwise the default strategy; an
absent, empty or unknown code always yields the default strategy. -/
theorem C9_strategy_selection :
    (∀ s : String,
        StrategyRegistry_get_strategy (some s)
          = ((StrategyRegistry_REGISTRY.lookup s).orElse
              (fun _ => StrategyRegistry_REGISTRY.lookup (str_lower s))).getD
              SuccessRateStrategyClass.defaultStrategy)
      ∧ StrategyRegistry_get_strategy none = SuccessRateStrategyClass.defaultStrategy
      ∧ StrategyRegistry_get_strategy (some "") = SuccessRateStrategyClass.defaultStrategy
      ∧ StrategyRegistry_get_strategy (some "Civil") = SuccessRateStrategyClass.civil
      ∧ StrategyRegistry_get_strategy (some "PEN") = SuccessRateStrategyClass.penal
      ∧ StrategyRegistry_get_strategy (some "XYZ")
          = SuccessRateStrategyClass.defaultStrategy := by
  refine ⟨?_, by decide, by decide, by decide, by decide, by decide⟩
  intro s
  simp only [StrategyRegistry_get_strategy]
  by_cases hs : s = ""
  · subst hs
    decide
  · simp only [if_neg hs]
    rcases hlk : StrategyRegistry_REGISTRY.lookup s with _ | cls
    · simp [hlk, Option.orElse]
    · simp [hlk, Option.orElse]

/-- A legal precedent as read by the favorability analysis: only its
`favoured_party` selection matters (`plaintiff`, `defendant`, or
unset). -/
structure Precedent where
  favoured_party : Option Party
deriving DecidableEq, Repr

/-- The dictionary returned by `analyze_favorability`; recordsets are
lists. -/
structure FavorabilityAnalysis where
  favorable : List Precedent
  unfavorable : List Precedent
  neutral : List Precedent
  favorable_count : Nat
  unfavorable_count : Nat
  neutral_count : Nat
  favorable_ratio : ℚ
deriving DecidableEq, Repr

/-- The empty analysis returned when there are no precedents or no client
role. -/
def emptyAnalysis : FavorabilityAnalysis := ⟨[], [], [], 0, 0, 0, 0⟩

/-- `PrecedentAnalysisService.analyze_favorability`
(`precedent_analysis_service.py`, lines 46-94): empty result when the
precedent set or the client role is falsy; otherwise filter favorable
(`favoured_party == client_role`) and unfavorable (`favoured_party` truthy
and different), take `neutral` as the recordset difference
`precedents - favorable - unfavorable` (membership-based removal), and
compute the ratio `favorable_count / total * 100` (total is positive
here, the guard is kept from the source). -/
def analyze_favorability (precedents : List Precedent) (client_role : Option Party) :
    FavorabilityAnalysis :=
  match client_role with
  | none => emptyAnalysis
  | some role =>
    if precedents = [] then emptyAnalysis
    else
      let favorable := precedents.filter (fun p => p.favoured_party == some role)
      let unfavorable :=
        precedents.filter (fun p => p.favoured_party.isSome && p.favoured_party != some role)
      let neutral :=
        (precedents.filter (fun p => decide (p ∉ favorable))).filter
          (fun p => decide (p ∉ unfavorable))
      let total := precedents.length
      let ratio : ℚ :=
        if 0 < total then (favorable.length : ℚ) / (total : ℚ) * 100 else 0
      ⟨favorable, unfavorable, neutral, favorable.length, unfavorable.length,
        neutral.length, ratio⟩

/-- The analysis as the claim words it: favorable iff the favored party
equals the client role, unfavorable iff it is set and differs, neutral iff
it is unset; ratio = favorable / total × 100, and everything is empty/0
when the precedent set is empty or the client role absent. -/
def C8spec_analyze (precedents : List Precedent) (client_role : Option Party) :
    FavorabilityAnalysis :=
  match client_role with
  | none => emptyAnalysis
  | some role =>
    if precedents = [] then emptyAnalysis
    else
      let favorable := precedents.filter (fun p => p.favoured_party == some role)
      let unfavorable :=
        precedents.filter (fun p => p.favoured_party.isSome && p.favoured_party != some role)
      let neutral := precedents.filter (fun p => p.favoured_party == none)
      ⟨favorable, unfavorable, neutral, favorable.length, unfavorable.length,
        neutral.length, (favorable.length : ℚ) / (precedents.length : ℚ) * 100⟩

/-- The worked scenario of the spec: five precedents, three favoring the
plaintiff and two favoring the defendant. -/
def c8_precedents : List Precedent :=
  [⟨some Party.plaintiff⟩, ⟨some Party.plaintiff⟩, ⟨some Party.plaintiff⟩,
   ⟨some Party.defendant⟩, ⟨some Party.defendant⟩]

/-- C8: `analyze_favorability` agrees with the claimed classification and
ratio rule on every input, and on the worked scenario (5 precedents, 3
favoring the plaintiff, 2 the defendant, client role plaintiff) it yields
favorable_count = 3, unfavorable_count = 2 and favorable_ratio = 60. -/
theorem C8_favorability_analysis :
    (∀ (precedents : List Precedent) (client_role : Option Party),
        analyze_favorability precedents client_role
          = C8spec_analyze precedents client_role)
      ∧ (analyze_favorability c8_precedents (some Party.plaintiff)).favorable_count = 3
      ∧ (analyze_favorability c8_precedents (some Party.plaintiff)).unfavorable_count = 2
      ∧ (analyze_favorability c8_precedents (some Party.plaintiff)).favorable_ratio = 60 := by
  have hfav : (c8_precedents.filter
      (fun p => p.favoured_party == some Party.plaintiff)).length = 3 := by decide
  have hlen : c8_precedents.length = 5 := by decide
  have hratio :
      (analyze_favorability c8_precedents (some Party.plaintiff)).favorable_ratio = 60 := by
    simp only [analyze_favorability]
    rw [if_neg (by decide : ¬c8_precedents = [])]
    simp only [hfav, hlen]
    norm_num
  refine ⟨?_, by decide, by decide, hratio⟩
  intro precedents client_role
  rcases client_role with _ | role
  · rfl
  · by_cases hps : precedents = []
    · subst hps
      rfl
    · simp only [analyze_favorability, C8spec_analyze, if_neg hps]
      have hlen : 0 < precedents.length := List.length_pos.mpr hps
      have hneutral :
          (precedents.filter
              (fun p => decide (p ∉ precedents.filter
                (fun q => q.favoured_party == some role)))).filter
            (fun p => decide (p ∉ precedents.filter
              (fun q => q.favoured_party.isSome && q.favoured_party != some role)))
            = precedents.filter (fun p => p.favoured_party == none) := by
        rw [List.filter_filter]
        refine List.filter_congr ?_
        intro p hp
        rcases hfp : p.favoured_party with _ | q
        · have h1 : ¬ p ∈ precedents.filter (fun q => q.favoured_party == some role) := by
            intro hmem
            have := List.of_mem_filter hmem
            simp [hfp] at this
          have h2 : ¬ p ∈ precedents.filter
              (fun q => q.favoured_party.isSome && q.favoured_party != some role) := by
            intro hmem
            have := List.of_mem_filter hmem
            simp [hfp] at this
          simp [hfp, h1, h2]
        · by_cases hq : q = role
          · subst hq
            have h1 : p ∈ precedents.filter (fun r => r.favoured_party == some q) :=
              List.mem_filter.mpr ⟨hp, by simp [hfp]⟩
            simp [hfp, h1]
          · have h2 : p ∈ precedents.filter
                (fun r => r.favoured_party.isSome && r.favoured_party != some role) :=
              List.mem_filter.mpr ⟨hp, by simp [hfp, hq]⟩
            simp [hfp, h2, hq]
      rw [hneutral, if_pos hlen]

/-- The results of the repository queries made by
`ScoreBasedSuccessRateStrategy._compute_lawyer_score` for the responsible
lawyer: experience (`lawyer.years_of_experience or 0` handles an unset
value), the closed cases of the lawyer in the practice area of the case
with outcome won / lost, and the count of other open cases of the lawyer. -/
structure LawyerRepoData where
  years_of_experience : Option Int
  past_won : Nat
  past_lost : Nat
  active_cases : Nat
deriving DecidableEq, Repr

/-- `ScoreBasedSuccessRateStrategy._compute_lawyer_score`
(`case_success_rate_service.py`, lines 38-86): base 50, experience bonus
capped at 20, win-rate adjustment in the practice area of the case, workload
penalty above five other active cases, clamped to [0, 100]. -/
def compute_lawyer_score (c : Case) (q : LawyerRepoData) : ℚ :=
  match c.responsible_employee_id with
  | none => 50
  | some _ =>
    let s1 : ℚ := 50 + min (((q.years_of_experience.getD 0 : Int) : ℚ) * 2) 20
    let s2 : ℚ :=
      if c.practice_area_id.isSome then
        let total := q.past_won + q.past_lost
        if 0 < total then
          let win_rate : ℚ := (q.past_won : ℚ) / (total : ℚ) * 100
          if 75 ≤ win_rate then s1 + 15
          else if 50 ≤ win_rate then s1 + 5
          else if win_rate < 30 then s1 - 10
          else s1 - 5
        else s1
      else s1
    let s3 : ℚ := if 5 < q.active_cases then s2 - 15 else s2
    max 0 (min 100 s3)

/-- The default `score_map` of `_compute_evidence_score` (lines 88-102). -/
def evidence_score_map : EvidenceStrength → ℚ
| .weak => 10
| .moderate => 40
| .strong => 70
| .conclusive => 90

/-- `_compute_evidence_score` with the default map: 0 when the field is
unset. -/
def compute_evidence_score (c : Case) : ℚ :=
  match c.evidence_strength with
  | some s => evidence_score_map s
  | none => 0

/-- The default `score_map` of `_compute_strength_score` (lines 104-119):
its keys are very_weak/weak/moderate/strong/very_strong, so the model
selection value `very_string` is not a key and `score_map.get(..., 0)`
yields 0 for it. -/
def strength_score_map : CaseStrength → ℚ
| .very_weak => 10
| .weak => 30
| .moderate => 50
| .strong => 75
| .very_string => 0

/-- `_compute_strength_score` with the default map: 0 when the field is
unset. -/
def compute_strength_score (c : Case) : ℚ :=
  match c.case_strength with
  | some s => strength_score_map s
  | none => 0

/-- `_compute_precedent_score` (lines 121-128): the favorable ratio times
the weight when a client role is set and the precedent count is nonzero,
else 0. -/
def compute_precedent_score (c : Case) (weight : ℚ) : ℚ :=
  if c.client_role.isSome ∧ 0 < c.precedent_count then
    ((c.favorable_precedents_count : ℚ) / (c.precedent_count : ℚ) * 100) * weight
  else 0

/-- `DefaultSuccessRateStrategy.compute` (`case_success_rate_service.py`,
lines 135-163): average the nonzero factor scores (a zero score is falsy
and not counted as a factor), blend with the lawyer score at 70/30, and
clamp to [0, 100]. -/
def DefaultSuccessRateStrategy_compute (c : Case) (q : LawyerRepoData) : ℚ :=
  let evidence_score := compute_evidence_score c
  let acc1 : ℚ × ℕ := if evidence_score ≠ 0 then (evidence_score, 1) else (0, 0)
  let strength_score := compute_strength_score c
  let acc2 : ℚ × ℕ :=
    if strength_score ≠ 0 then (acc1.1 + strength_score, acc1.2 + 1) else acc1
  let precedent_score := compute_precedent_score c 1
  let acc3 : ℚ × ℕ :=
    if precedent_score ≠ 0 then (acc2.1 + precedent_score, acc2.2 + 1) else acc2
  let avg_score : ℚ := if acc3.2 ≠ 0 then acc3.1 / (acc3.2 : ℚ) else 0
  let lawyer_score := compute_lawyer_score c q
  let final_rate := avg_score * (7 / 10) + lawyer_score * (3 / 10)
  max 0 (min 100 final_rate)

lemma clamp_mem_unit_interval (x : ℚ) :
    0 ≤ max 0 (min 100 x) ∧ max 0 (min 100 x) ≤ 100 :=
  ⟨le_max_left 0 _, max_le (by norm_num) (min_le_left _ _)⟩

/-- C3: for every case snapshot — any combination of present or absent
evidence strength, case strength, precedent counts, client role and
responsible lawyer, and any repository query results (experience, win
record, caseload) — the default success-rate computation stays within
[0, 100]. -/
theorem C3_success_rate_in_range :
    ∀ (c : Case) (q : LawyerRepoData),
      0 ≤ DefaultSuccessRateStrategy_compute c q
        ∧ DefaultSuccessRateStrategy_compute c q ≤ 100 :=
  fun _ _ => clamp_mem_unit_interval _

end LawFirm
